import Mathlib

/-!
Verification of the libusbg core (src/usbg.c) against its natural-language
specification.  The C code is shallowly embedded: pure helpers become Lean
functions, the TAILQ intrusive lists become an explicit pointer machine on
node identifiers, and the filesystem / errno environment is passed explicitly
(directories as a list of paths, I/O outcomes as oracle parameters).
-/

namespace Usbg

/-- Modelled from the spec: error taxonomy of usbg/usbg.h (the header is not
under src); USBG_SUCCESS is 0 and the errors are negative, as required by call
sites such as usbg_parse_config checking ret <= 0 and usbg_enable_gadget
checking ret >= 0. -/
def USBG_SUCCESS : Int := 0

/-- Modelled from the spec: see USBG_SUCCESS. -/
def USBG_ERROR_NO_MEM : Int := -1

/-- Modelled from the spec: see USBG_SUCCESS. -/
def USBG_ERROR_NO_ACCESS : Int := -2

/-- Modelled from the spec: see USBG_SUCCESS. -/
def USBG_ERROR_INVALID_PARAM : Int := -3

/-- Modelled from the spec: see USBG_SUCCESS. -/
def USBG_ERROR_NOT_FOUND : Int := -4

/-- Modelled from the spec: see USBG_SUCCESS. -/
def USBG_ERROR_IO : Int := -5

/-- Modelled from the spec: see USBG_SUCCESS. -/
def USBG_ERROR_EXIST : Int := -6

/-- Modelled from the spec: see USBG_SUCCESS. -/
def USBG_ERROR_NO_DEV : Int := -7

/-- Modelled from the spec: see USBG_SUCCESS. -/
def USBG_ERROR_BUSY : Int := -8

/-- Modelled from the spec: see USBG_SUCCESS. -/
def USBG_ERROR_NOT_SUPPORTED : Int := -9

/-- Modelled from the spec: see USBG_SUCCESS. -/
def USBG_ERROR_PATH_TOO_LONG : Int := -10

/-- Modelled from the spec: see USBG_SUCCESS. -/
def USBG_ERROR_OTHER_ERROR : Int := -11

/-- Linux errno value used by the source. -/
def ENOMEM : Int := 12

/-- Linux errno value used by the source. -/
def EACCES : Int := 13

/-- Linux errno value used by the source. -/
def EROFS : Int := 30

/-- Linux errno value used by the source. -/
def EPERM : Int := 1

/-- Linux errno value used by the source. -/
def ENOENT : Int := 2

/-- Linux errno value used by the source. -/
def ENOTDIR : Int := 20

/-- Linux errno value used by the source. -/
def EINVAL : Int := 22

/-- Linux errno value used by the source. -/
def EIO : Int := 5

/-- Linux errno value used by the source. -/
def EEXIST : Int := 17

/-- Linux errno value used by the source. -/
def ENODEV : Int := 19

/-- Linux errno value used by the source. -/
def EBUSY : Int := 16

/-- Linux errno value set by strtol on overflow. -/
def ERANGE : Int := 34

/-- usbg_translate_error from src/usbg.c lines 139-177: maps a raw errno to the
closed usbg error taxonomy; note that the switch also lists
USBG_ERROR_INVALID_PARAM itself as a case label next to EINVAL. -/
def usbg_translate_error (e : Int) : Int :=
  if e = ENOMEM then USBG_ERROR_NO_MEM
  else if e = EACCES ∨ e = EROFS ∨ e = EPERM then USBG_ERROR_NO_ACCESS
  else if e = ENOENT ∨ e = ENOTDIR then USBG_ERROR_NOT_FOUND
  else if e = EINVAL ∨ e = USBG_ERROR_INVALID_PARAM then USBG_ERROR_INVALID_PARAM
  else if e = EIO then USBG_ERROR_IO
  else if e = EEXIST then USBG_ERROR_EXIST
  else if e = ENODEV then USBG_ERROR_NO_DEV
  else if e = EBUSY then USBG_ERROR_BUSY
  else USBG_ERROR_OTHER_ERROR

/-- Modelled from the spec: bounded path buffer size of usbg/usbg.h (header not
under src); the exact value only fixes where the "path too long" checks fire. -/
def USBG_MAX_PATH_LENGTH : Nat := 256

/-- Modelled from the spec: bounded string buffer size of usbg/usbg.h (header
not under src). -/
def USBG_MAX_STR_LENGTH : Nat := 256

/-- C strcmp on the character lists of two NUL-terminated strings: only the
sign of the result is used by the source. -/
def strcmpAux : List Char → List Char → Int
  | [], [] => 0
  | [], _ :: _ => -1
  | _ :: _, [] => 1
  | a :: as, b :: bs =>
    if a.toNat = b.toNat then strcmpAux as bs
    else if a.toNat < b.toNat then -1 else 1

/-- C strcmp on Lean strings. -/
def strcmp (a b : String) : Int := strcmpAux a.data b.data

/-- Modelled C snprintf into a buffer of the given size: returns the length the
formatted text would have (excluding the NUL) and the text actually stored,
truncated to size - 1 characters. -/
def snprintfModel (size : Nat) (s : String) : Nat × String :=
  (s.data.length, String.mk (s.data.take (size - 1)))

/-- function_names from src/usbg.c lines 96-107: the fixed function-type
string table, ordinal to string. -/
def function_names : List String :=
  ["gser", "acm", "obex", "ecm", "geth", "ncm", "eem", "rndis", "phonet"]

/-- Loop body of usbg_lookup_function_type: scan the table from index i,
returning the index of the first strcmp match or -1. -/
def lookupAux (name : String) : Nat → List String → Int
  | _, [] => -1
  | i, n :: ns => if name = n then Int.ofNat i else lookupAux name (i + 1) ns

/-- usbg_lookup_function_type from src/usbg.c lines 271-289 (non-null name
case): index of the first table entry equal to name, or -1. -/
def usbg_lookup_function_type (name : String) : Int :=
  lookupAux name 0 function_names

/-- usbg_get_function_type_str from src/usbg.c lines 291-295: guarded table
access; note the source checks type > 0, not type >= 0, so ordinal 0 yields
NULL (modelled as none). -/
def usbg_get_function_type_str (type : Int) : Option String :=
  if 0 < type ∧ type < (function_names.length : Int) then
    function_names.get? type.toNat
  else none

/-- Modelled C strchr followed by splitting at the found character: scan for
the first occurrence of c and return the prefix before it and the suffix
after it, or none when c does not occur. -/
def strchrSplit : List Char → Char → Option (List Char × List Char)
  | [], _ => none
  | x :: xs, c =>
    if x = c then some ([], xs)
    else
      match strchrSplit xs c with
      | none => none
      | some (p, s) => some (x :: p, s)

/-- Modelled C strrchr followed by splitting at the found character: split at
the last occurrence of c, via strchrSplit on the reversed list. -/
def strrchrSplit (ds : List Char) (c : Char) : Option (List Char × List Char) :=
  match strchrSplit ds.reverse c with
  | none => none
  | some (rsuf, rpre) => some (rpre.reverse, rsuf.reverse)

/-- usbg_split_function_instance_type from src/usbg.c lines 297-329: split the
on-disk function name at the first dot; the result carries the returned error
code and the values stored through the two out parameters (the instance
pointer is written as soon as the dot checks pass, before the table lookup). -/
def usbg_split_function_instance_type (full_name : String) :
    Int × Option Int × Option String :=
  match strchrSplit full_name.data '.' with
  | none => (USBG_ERROR_INVALID_PARAM, none, none)
  | some (pre, suf) =>
    if pre = [] ∨ suf = [] then (USBG_ERROR_INVALID_PARAM, none, none)
    else
      let t := usbg_lookup_function_type (String.mk pre)
      if 0 ≤ t then (USBG_SUCCESS, some t, some (String.mk suf))
      else (USBG_ERROR_NOT_SUPPORTED, none, some (String.mk suf))

/-- C isspace in the default locale. -/
def isspaceC (c : Char) : Bool :=
  c == ' ' || c == '\t' || c == '\n' || c == '\x0b' || c == '\x0c' || c == '\r'

/-- Decimal value of a digit list. -/
def digitsVal (ds : List Char) : Nat :=
  ds.foldl (fun acc c => acc * 10 + (c.toNat - 48)) 0

/-- LONG_MAX of a 64-bit C long. -/
def LONG_MAX : Int := 2 ^ 63 - 1

/-- LONG_MIN of a 64-bit C long. -/
def LONG_MIN : Int := -(2 ^ 63)

/-- Digit-consuming phase of modelled strtol after sign handling: orig is the
full input, to which endptr falls back when no digit is consumed. -/
def strtolBody (sign : Int) (r : List Char) (orig : List Char) :
    Int × List Char × Bool :=
  let ds := r.takeWhile Char.isDigit
  let rest := r.dropWhile Char.isDigit
  if ds = [] then (0, orig, false)
  else
    let v : Int := sign * (digitsVal ds : Int)
    if v > LONG_MAX then (LONG_MAX, rest, true)
    else if v < LONG_MIN then (LONG_MIN, rest, true)
    else (v, rest, false)

/-- Modelled C strtol with base 10: skip leading whitespace, consume an
optional sign and decimal digits; returns the value clamped to the long range,
the unconsumed tail (the endptr position), and whether ERANGE overflow
occurred; with no digits it returns 0 with endptr at the start of the input. -/
def strtol10 (l : List Char) : Int × List Char × Bool :=
  match l.dropWhile (fun c => isspaceC c) with
  | [] => strtolBody 1 [] l
  | a :: r =>
    if a = '-' then strtolBody (-1) r l
    else if a = '+' then strtolBody 1 r l
    else strtolBody 1 (a :: r) l

/-- usbg_split_config_label_id from src/usbg.c lines 331-362: split the
on-disk config name at the last dot and parse the suffix with strtol base 10;
on success the return value is the parsed id itself; the second component is
the label out parameter (left NULL on the early rejections and on the errno
path, set on the range rejection and on success, exactly as in the source). -/
def usbg_split_config_label_id (full_name : String) : Int × Option String :=
  match strrchrSplit full_name.data '.' with
  | none => (USBG_ERROR_INVALID_PARAM, none)
  | some (pre, suf) =>
    match suf with
    | [] => (USBG_ERROR_INVALID_PARAM, none)
    | c :: _ =>
      if pre = [] ∨ isspaceC c then (USBG_ERROR_INVALID_PARAM, none)
      else
        let r := strtol10 suf
        if r.2.2 then (usbg_translate_error ERANGE, none)
        else if ¬ (r.2.1 = []) ∨ r.1 < 0 ∨ r.1 > 255 then
          (USBG_ERROR_INVALID_PARAM, some (String.mk pre))
        else (r.1, some (String.mk pre))

/-- Pointer machine for the BSD TAILQ intrusive list of sys/queue.h as used by
the usbg entity structs.  Nodes are identified by natural numbers.  lastPtr
and prevPtr model a C pointer to a next-pointer cell: none is the tqh_first
cell of the head, some j is the tqe_next cell of node j.  TAILQ_INIT sets
tqh_first to NULL and tqh_last to the address of tqh_first. -/
structure TQ where
  first : Option Nat
  lastPtr : Option Nat
  next : Nat → Option Nat
  prevPtr : Nat → Option Nat

/-- A TAILQ after TAILQ_INIT. -/
def TQ.init : TQ := ⟨none, none, fun _ => none, fun _ => none⟩

/-- Read through a pointer to a next cell. -/
def TQ.readCell (st : TQ) (p : Option Nat) : Option Nat :=
  match p with
  | none => st.first
  | some j => st.next j

/-- Store through a pointer to a next cell. -/
def TQ.writeCell (st : TQ) (p : Option Nat) (v : Option Nat) : TQ :=
  match p with
  | none => { st with first := v }
  | some j => { st with next := fun k => if k = j then v else st.next k }

/-- Assign the tqe_next field of node e. -/
def TQ.setNext (st : TQ) (e : Nat) (v : Option Nat) : TQ :=
  { st with next := fun k => if k = e then v else st.next k }

/-- Assign the tqe_prev field of node e. -/
def TQ.setPrevPtr (st : TQ) (e : Nat) (v : Option Nat) : TQ :=
  { st with prevPtr := fun k => if k = e then v else st.prevPtr k }

/-- TAILQ_INSERT_HEAD of sys/queue.h. -/
def TQ.insertHead (st : TQ) (e : Nat) : TQ :=
  let st1 := st.setNext e st.first
  let st2 :=
    match st.first with
    | some f => st1.setPrevPtr f (some e)
    | none => { st1 with lastPtr := some e }
  let st3 := { st2 with first := some e }
  st3.setPrevPtr e none

/-- TAILQ_INSERT_TAIL of sys/queue.h. -/
def TQ.insertTail (st : TQ) (e : Nat) : TQ :=
  let st1 := st.setNext e none
  let st2 := st1.setPrevPtr e st.lastPtr
  let st3 := st2.writeCell st.lastPtr (some e)
  { st3 with lastPtr := some e }

/-- TAILQ_INSERT_BEFORE of sys/queue.h: note that it only rewires pointers
around listelm; it does not first unlink e if e is already in the list. -/
def TQ.insertBefore (st : TQ) (listelm e : Nat) : TQ :=
  let p := st.prevPtr listelm
  let st1 := st.setPrevPtr e p
  let st2 := st1.setNext e (some listelm)
  let st3 := st2.writeCell p (some e)
  st3.setPrevPtr listelm (some e)

/-- TAILQ_LAST of sys/queue.h: via the head cast trick it dereferences the
prev pointer of the cell tqh_last points into, yielding the last element (or
NULL when the queue is empty). -/
def TQ.last (st : TQ) : Option Nat :=
  match st.lastPtr with
  | none => st.first
  | some j => st.readCell (st.prevPtr j)

/-- Fuel-bounded forward traversal from a given cursor. -/
def TQ.toListAux (st : TQ) : Nat → Option Nat → List Nat
  | 0, _ => []
  | _ + 1, none => []
  | fuel + 1, some c => c :: st.toListAux fuel (st.next c)

/-- Fuel-bounded forward traversal of the whole queue (TAILQ_FOREACH order). -/
def TQ.toList (st : TQ) (fuel : Nat) : List Nat :=
  st.toListAux fuel st.first

/-- Build a queue holding the given nodes in order, by TAILQ_INSERT_TAIL. -/
def TQ.fromList (l : List Nat) : TQ := l.foldl TQ.insertTail TQ.init

/-- The TAILQ_FOREACH loop in the final else branch of
INSERT_TAILQ_STRING_ORDER (src/usbg.c lines 129-135): walk the queue; while
the new name is strictly greater continue, otherwise TAILQ_INSERT_BEFORE the
cursor; the loop body has no break, so after an insertion the walk continues
from the cursor and may insert the same node again. -/
def foreachInsertBefore (names : Nat → String) (e : Nat) :
    Nat → Option Nat → TQ → TQ
  | 0, _, st => st
  | _ + 1, none, st => st
  | fuel + 1, some c, st =>
    if strcmp (names e) (names c) > 0 then
      foreachInsertBefore names e fuel (st.next c) st
    else
      let st2 := st.insertBefore c e
      foreachInsertBefore names e fuel (st2.next c) st2

/-- INSERT_TAILQ_STRING_ORDER from src/usbg.c lines 122-137.  In every state
the source reaches, the queue is nonempty in the TAILQ_LAST branch, so last is
some; the none fallback there is unreachable filler. -/
def INSERT_TAILQ_STRING_ORDER (names : Nat → String) (fuel : Nat)
    (st : TQ) (e : Nat) : TQ :=
  match st.first with
  | none => st.insertHead e
  | some f =>
    if strcmp (names e) (names f) < 0 then st.insertHead e
    else
      match st.last with
      | some la =>
        if strcmp (names e) (names la) > 0 then st.insertTail e
        else foreachInsertBefore names e fuel st.first st
      | none => foreachInsertBefore names e fuel st.first st

/-- Run INSERT_TAILQ_STRING_ORDER on a collection represented as a Lean list:
the existing elements are nodes 0..n-1 in list order, the new element is node
n; the result is the forward traversal of the queue afterwards. -/
def insertTailqStringOrderList {α : Type} (key : α → String)
    (l : List α) (x : α) : List α :=
  let arr := l ++ [x]
  let names : Nat → String := fun i => key (arr.getD i x)
  let st0 := TQ.fromList (List.range l.length)
  let st1 := INSERT_TAILQ_STRING_ORDER names (arr.length + 1) st0 l.length
  (st1.toList (arr.length + 1)).map fun i => arr.getD i x

/-- Modelled from the spec: ordinal of F_SERIAL in usbg_function_type
(usbg/usbg.h is not under src); serial=0 through phonet=8 per the spec table
and tests/test.c. -/
def F_SERIAL : Int := 0

/-- Modelled from the spec: ordinal of F_ACM, see F_SERIAL. -/
def F_ACM : Int := 1

/-- The first line of a file as fgets delivers it: up to and including the
first newline. -/
def firstLineIncl : List Char → List Char
  | [] => []
  | c :: cs => c :: (if c = '\n' then [] else firstLineIncl cs)

/-- Modelled fgets(buf, USBG_MAX_STR_LENGTH, fp) at the start of a file with
the given contents: none (NULL) when the file is empty, otherwise at most
USBG_MAX_STR_LENGTH - 1 characters of the first line. -/
def fgetsModel (content : String) : Option String :=
  if content = "" then none
  else some (String.mk ((firstLineIncl content.data).take (USBG_MAX_STR_LENGTH - 1)))

/-- usbg_read_buf from src/usbg.c lines 380-407.  fs maps a composed path to
the file contents (none: fopen fails and errno is eno).  Returns the usbg
code and the output buffer; the previous buffer contents buf survive untouched
on every failure path of this function. -/
def usbg_read_buf (fs : String → Option String) (eno : Int)
    (path name file : String) (buf : String) : Int × String :=
  let r := snprintfModel USBG_MAX_PATH_LENGTH (path ++ "/" ++ name ++ "/" ++ file)
  if r.1 < USBG_MAX_PATH_LENGTH then
    match fs r.2 with
    | some content =>
      match fgetsModel content with
      | some line => (USBG_SUCCESS, line)
      | none => ( USBG_ERROR_IO, buf)
    | none => (usbg_translate_error eno, buf)
  else (USBG_ERROR_PATH_TOO_LONG, buf)

/-- usbg_read_string from src/usbg.c lines 429-445: read via usbg_read_buf; on
success cut the buffer at the first newline, on any failure store the empty
string into the buffer. -/
def usbg_read_string (fs : String → Option String) (eno : Int)
    (path name file : String) (buf : String) : Int × String :=
  let r := usbg_read_buf fs eno path name file buf
  if r.1 = USBG_SUCCESS then
    (r.1, String.mk (r.2.data.takeWhile (fun c => c ≠ '\n')))
  else (r.1, "")

/-- The shared tail of usbg_enable_gadget (src/usbg.c lines 2078-2083) once
the controller name udc has been chosen: write it to the UDC attribute file
(outcome writeRet supplied by the environment) and only on success copy it
into the in-memory mirror g.udc. -/
def usbg_enable_gadget_write (g_udc udc : String) (writeRet : Int) :
    Int × String :=
  let ret := writeRet
  if ret = USBG_SUCCESS then (ret, udc) else (ret, g_udc)

/-- usbg_enable_gadget from src/usbg.c lines 2052-2084: with no explicit
controller, scan the controller list (inl: scandir failed with that code,
returned directly; inr: the entries in alphasort order) and take the first
entry; then the write phase.  An empty scan list makes the source read
udc_list[0] out of bounds; that unreachable-in-practice case is modelled as
returning the unchanged mirror with USBG_ERROR_OTHER_ERROR. -/
def usbg_enable_gadget (g_udc : String) (udc : Option String)
    (udcScan : Int ⊕ List String) (writeRet : Int) : Int × String :=
  match udc with
  | some u => usbg_enable_gadget_write g_udc u writeRet
  | none =>
    match udcScan with
    | Sum.inl e => (e, g_udc)
    | Sum.inr [] => (USBG_ERROR_OTHER_ERROR, g_udc)
    | Sum.inr (u :: _) => usbg_enable_gadget_write g_udc u writeRet

/-- usbg_disable_gadget from src/usbg.c lines 2086-2096: the mirror g.udc is
cleared by strcpy before the UDC write is attempted; writeRet is the outcome
of that write and is returned unchanged. -/
def usbg_disable_gadget (g_udc : String) (writeRet : Int) : Int × String :=
  let udc1 := ""
  let ret := writeRet
  (ret, udc1)

/-- usbg_get_function lookup of src/usbg.c lines 1258-1268 reduced to a
membership test on the modelled (type, instance) collection. -/
def usbg_get_function_mem (funcs : List (Int × String))
    (type : Int) (inst : String) : Bool :=
  funcs.any fun f => f.1 == type && f.2 == inst

/-- Composite on-disk name of a modelled function, as usbg_allocate_function
builds it: type string, dot, instance. -/
def functionName (f : Int × String) : String :=
  ((usbg_get_function_type_str f.1).getD "") ++ "." ++ f.2

/-- usbg_create_function from src/usbg.c lines 1721-1775.  The parent gadget
is given by its path and name and its (type, instance) collection in queue
order; fs is the list of directories present; mkdirErrno none means mkdir
succeeds; hasAttrs/attrRet give the caller attribute block and the outcome of
usbg_set_function_attrs.  Returns (code, directories, collection).  When the
appended name does not fit the buffer, the source skips mkdir and falls
through with ret still at its initial USBG_ERROR_INVALID_PARAM, not
PATH_TOO_LONG.  On failure after mkdir the node is freed but the directory is
not removed.  A type without a table string makes usbg_allocate_function
return NULL and the source take the NO_MEM branch (and then dereference the
null node; the model stops at the NO_MEM code). -/
def usbg_create_function (gpath gname : String) (funcs : List (Int × String))
    (type : Int) (inst : String) (fs : List String)
    (mkdirErrno : Option Int) (hasAttrs : Bool) (attrRet : Int) :
    Int × List String × List (Int × String) :=
  if usbg_get_function_mem funcs type inst then (USBG_ERROR_EXIST, fs, funcs)
  else
    let r1 := snprintfModel USBG_MAX_PATH_LENGTH (gpath ++ "/" ++ gname ++ "/functions")
    if r1.1 ≥ USBG_MAX_PATH_LENGTH then (USBG_ERROR_PATH_TOO_LONG, fs, funcs)
    else
      match usbg_get_function_type_str type with
      | none => (USBG_ERROR_NO_MEM, fs, funcs)
      | some ts =>
        let name := ts ++ "." ++ inst
        let free_space := USBG_MAX_PATH_LENGTH - r1.1
        let r2 := snprintfModel free_space ("/" ++ name)
        let fpath := r1.2 ++ r2.2
        if r2.1 < free_space then
          match mkdirErrno with
          | some e => (usbg_translate_error e, fs, funcs)
          | none =>
            let fs1 := fs ++ [fpath]
            let ret := if hasAttrs then attrRet else USBG_SUCCESS
            if ret = USBG_SUCCESS then
              (USBG_SUCCESS, fs1,
                insertTailqStringOrderList functionName funcs (type, inst))
            else (ret, fs1, funcs)
        else (USBG_ERROR_INVALID_PARAM, fs, funcs)

/-- usbg_set_config_attrs from src/usbg.c lines 1880-1892: the guard reads
c && !c_attrs, so with a non-null attribute block the write branch is not
taken and the initial USBG_ERROR_INVALID_PARAM is returned without any write;
with a NULL block the branch would dereference the null pointer (modelled as
none). -/
def usbg_set_config_attrs (cPresent attrsPresent : Bool) : Option Int :=
  if cPresent && !attrsPresent then none
  else some USBG_ERROR_INVALID_PARAM

/-- Composite on-disk name of a modelled config, as usbg_allocate_config
builds it by asprintf: label, dot, decimal id. -/
def configName (c : Int × String) : String :=
  c.2 ++ "." ++ toString c.1

/-- usbg_create_config from src/usbg.c lines 1777-1841.  configs is the
(id, label) collection in queue order; fs the directories present; mkdirErrno
none means mkdir succeeds; hasAttrs says whether a caller attribute block is
passed (its outcome is fixed by usbg_set_config_attrs); strsRet is the
outcome of usbg_set_config_string when a strings block is passed.  Note the
source's inverted length check: when the appended name fits it briefly
assigns PATH_TOO_LONG (immediately overwritten by the mkdir result), and when
it does not fit nothing is assigned and mkdir runs unconditionally on the
truncated buffer. -/
def usbg_create_config (gpath gname : String) (configs : List (Int × String))
    (id : Int) (label : String) (fs : List String)
    (mkdirErrno : Option Int) (hasAttrs : Bool) (strsRet : Option Int) :
    Int × List String × List (Int × String) :=
  if id ≤ 0 ∨ id > 255 then (USBG_ERROR_INVALID_PARAM, fs, configs)
  else if configs.any (fun c => c.1 == id) then (USBG_ERROR_EXIST, fs, configs)
  else
    let r1 := snprintfModel USBG_MAX_PATH_LENGTH (gpath ++ "/" ++ gname ++ "/configs")
    if r1.1 ≥ USBG_MAX_PATH_LENGTH then (USBG_ERROR_PATH_TOO_LONG, fs, configs)
    else
      let name := label ++ "." ++ toString id
      let free_space := USBG_MAX_PATH_LENGTH - r1.1
      let r2 := snprintfModel free_space ("/" ++ name)
      let cpath := r1.2 ++ r2.2
      match mkdirErrno with
      | some e => (usbg_translate_error e, fs, configs)
      | none =>
        let fs1 := fs ++ [cpath]
        let ret1 := if hasAttrs then
            (usbg_set_config_attrs true true).getD USBG_ERROR_OTHER_ERROR
          else USBG_SUCCESS
        let ret2 := if ret1 = USBG_SUCCESS then
            (match strsRet with
             | some sret => sret
             | none => ret1)
          else ret1
        if ret2 = USBG_SUCCESS then
          (USBG_SUCCESS, fs1,
            insertTailqStringOrderList configName configs (id, label))
        else (ret2, fs1, configs)

/-- usbg_create_empty_gadget from src/usbg.c lines 1361-1398: path check,
allocate, mkdir, then read the fresh UDC attribute; only when that read fails
is the just-created directory removed again by rmdir (so the net directory
list is unchanged in that case).  udcReadRet is the outcome of the UDC read. -/
def usbg_create_empty_gadget (spath name : String) (fs : List String)
    (mkdirErrno : Option Int) (udcReadRet : Int) : Int × List String :=
  let r1 := snprintfModel USBG_MAX_PATH_LENGTH (spath ++ "/" ++ name)
  if r1.1 ≥ USBG_MAX_PATH_LENGTH then (USBG_ERROR_PATH_TOO_LONG, fs)
  else
    match mkdirErrno with
    | some e => (usbg_translate_error e, fs)
    | none =>
      if udcReadRet = USBG_SUCCESS then (USBG_SUCCESS, fs ++ [r1.2])
      else (udcReadRet, fs)

/-- usbg_create_gadget_vid_pid from src/usbg.c lines 1400-1432: duplicate
check, usbg_create_empty_gadget, then write idVendor and idProduct (outcomes
vidRet and pidRet); only when both writes succeed is the gadget inserted;
when idProduct fails the node is freed, when idVendor fails it is merely
abandoned; in neither case is the created directory removed.  gadgets is the
collection of gadget names in queue order. -/
def usbg_create_gadget_vid_pid (spath : String) (gadgets : List String)
    (name : String) (fs : List String) (mkdirErrno : Option Int)
    (udcReadRet vidRet pidRet : Int) : Int × List String × List String :=
  if gadgets.any (fun g => g == name) then (USBG_ERROR_EXIST, fs, gadgets)
  else
    let r := usbg_create_empty_gadget spath name fs mkdirErrno udcReadRet
    if r.1 = USBG_SUCCESS then
      if vidRet = USBG_SUCCESS then
        if pidRet = USBG_SUCCESS then
          (USBG_SUCCESS, r.2, insertTailqStringOrderList id gadgets name)
        else (pidRet, r.2, gadgets)
      else (vidRet, r.2, gadgets)
    else (r.1, r.2, gadgets)

/-- alphasort comparison of scandir in the C locale: strcmp at most zero. -/
def strle (a b : String) : Bool := decide (strcmpAux a.data b.data ≤ 0)

/-- Insert into a strcmp-sorted list. -/
def insertSorted (x : String) : List String → List String
  | [] => [x]
  | y :: ys => if strle x y then x :: y :: ys else y :: insertSorted x ys

/-- The entry order scandir with alphasort produces. -/
def alphasortList (l : List String) : List String :=
  l.foldr insertSorted []

/-- Loop body of usbg_parse_functions: split the directory entry, allocate and
TAILQ_INSERT_TAIL on success; after a failure the remaining entries are only
freed. -/
def parseFunctionsStep (acc : Int × List (Int × String)) (entry : String) :
    Int × List (Int × String) :=
  if acc.1 = USBG_SUCCESS then
    let s := usbg_split_function_instance_type entry
    if s.1 = USBG_SUCCESS then
      match s.2.1, s.2.2 with
      | some t, some inst => (USBG_SUCCESS, acc.2 ++ [(t, inst)])
      | _, _ => (USBG_ERROR_OTHER_ERROR, acc.2)
    else (s.1, acc.2)
  else acc

/-- usbg_parse_functions from src/usbg.c lines 789-832 at the name level:
scandir lists the entries of the functions directory in alphasort order, and
each is split and appended in that order. -/
def usbg_parse_functions (dirEntries : List String) :
    Int × List (Int × String) :=
  (alphasortList dirEntries).foldl parseFunctionsStep (USBG_SUCCESS, [])

/-- A sequence of usbg_create_function calls on one gadget, all filesystem
operations succeeding and no attribute blocks, stopping at the first failing
create: the round-trip build phase of the spec. -/
def createFunctionsSeq (gpath gname : String) (seq : List (Int × String)) :
    Int × List String × List (Int × String) :=
  seq.foldl
    (fun acc f =>
      if acc.1 = USBG_SUCCESS then
        usbg_create_function gpath gname acc.2.2 f.1 f.2 acc.2.1 none false 0
      else acc)
    (USBG_SUCCESS, [], [])

/-- Value phase of the parse demanded by the claim wording, after the sign:
decimal digits and nothing else, with the signed value in [0, 255]. -/
def specIdBody (sign : Int) (r : List Char) : Option Int :=
  if r ≠ [] ∧ r.all Char.isDigit then
    let v : Int := sign * (digitsVal r : Int)
    if 0 ≤ v ∧ v ≤ 255 then some v else none
  else none

/-- Parse demanded by the claim wording for the config id suffix: a base-10
integer (optional sign, then digits) with no trailing characters and value in
[0, 255]. -/
def specConfigIdParse (l : List Char) : Option Int :=
  match l with
  | [] => specIdBody 1 []
  | a :: r =>
    if a = '-' then specIdBody (-1) r
    else if a = '+' then specIdBody 1 r
    else specIdBody 1 (a :: r)

/-- Overflow phase of the amendment: the digit run consumed by strtol exceeds
the long range. -/
def overflowBody (sign : Int) (r : List Char) : Bool :=
  decide (r.takeWhile Char.isDigit ≠ [] ∧
    (sign * (digitsVal (r.takeWhile Char.isDigit) : Int) > LONG_MAX ∨
     sign * (digitsVal (r.takeWhile Char.isDigit) : Int) < LONG_MIN))

/-- The amendment's exception: the suffix makes strtol overflow and set
ERANGE. -/
def strtolOverflow (l : List Char) : Bool :=
  match l with
  | [] => overflowBody 1 []
  | a :: r =>
    if a = '-' then overflowBody (-1) r
    else if a = '+' then overflowBody 1 r
    else overflowBody 1 (a :: r)

theorem strchrSplit_not_mem (l : List Char) (c : Char) (h : c ∉ l) :
    strchrSplit l c = none := by
  induction l with
  | nil => rfl
  | cons a as ih =>
    have ha : a ≠ c := fun e => h (by simp [e])
    rw [strchrSplit, if_neg ha, ih fun hm => h (by simp [hm])]

theorem strchrSplit_append (l1 l2 : List Char) (c : Char)
    (h : ∀ x ∈ l1, x ≠ c) :
    strchrSplit (l1 ++ c :: l2) c = some (l1, l2) := by
  induction l1 with
  | nil => simp [strchrSplit]
  | cons a as ih =>
    have ha : a ≠ c := h a (by simp)
    rw [List.cons_append, strchrSplit, if_neg ha,
      ih fun x hx => h x (by simp [hx])]

theorem strrchrSplit_last (pre suf : List Char) (c : Char)
    (h : ∀ x ∈ suf, x ≠ c) :
    strrchrSplit (pre ++ c :: suf) c = some (pre, suf) := by
  have hrev : (pre ++ c :: suf).reverse = suf.reverse ++ c :: pre.reverse := by
    simp
  rw [strrchrSplit, hrev,
    strchrSplit_append _ _ _ fun x hx => h x (List.mem_reverse.mp hx)]
  simp

theorem lookupAux_spec (name : String) (l : List String) (i : Nat) :
    lookupAux name i l =
      if name ∈ l then Int.ofNat (i + List.indexOf name l) else -1 := by
  induction l generalizing i with
  | nil => simp [lookupAux]
  | cons n ns ih =>
    by_cases h : name = n
    · subst h
      simp [lookupAux, List.indexOf_cons_self]
    · rw [lookupAux, if_neg h, ih]
      by_cases hm : name ∈ ns
      · simp [hm, h, List.indexOf_cons_ne _ fun e => h e.symm]
        omega
      · simp [hm, h]

/-- C1: the spec claims a graph built via the create operations and then
rediscovered from the same root is identical; the code violates this.
Creating acm functions with instances 0, 2, 4, 1 in that order (all I/O
succeeding) yields the in-memory iteration order [acm.0, acm.1, acm.4]:
acm.2 is unlinked because the foreach of INSERT_TAILQ_STRING_ORDER has no
break and re-inserts the new node before every later element.  Rediscovery of
the four created directories yields [acm.0, acm.1, acm.2, acm.4], so the two
graphs differ. -/
theorem C1_roundtrip_mismatch :
    createFunctionsSeq "p" "g" [(F_ACM, "0"), (F_ACM, "2"), (F_ACM, "4"), (F_ACM, "1")] =
      (USBG_SUCCESS,
        ["p/g/functions/acm.0", "p/g/functions/acm.2",
         "p/g/functions/acm.4", "p/g/functions/acm.1"],
        [(F_ACM, "0"), (F_ACM, "1"), (F_ACM, "4")]) ∧
    usbg_parse_functions ["acm.0", "acm.2", "acm.4", "acm.1"] =
      (USBG_SUCCESS, [(F_ACM, "0"), (F_ACM, "1"), (F_ACM, "2"), (F_ACM, "4")]) ∧
    ([(F_ACM, "0"), (F_ACM, "1"), (F_ACM, "4")] : List (Int × String)) ≠
      [(F_ACM, "0"), (F_ACM, "1"), (F_ACM, "2"), (F_ACM, "4")] := by
  decide

/-- C2: the spec claims every collection stays in ascending lexicographic
order with each inserted element present exactly once; insertion at the head
or tail (for example c.4 then c.2) does keep the order, but inserting c.2
into [c.1, c.3, c.5] unlinks c.3, because the foreach of
INSERT_TAILQ_STRING_ORDER has no break and re-inserts the new node before
every later element, so the claimed invariant fails. -/
theorem C2_insert_drops_element :
    ["c.4", "c.2"].foldl (insertTailqStringOrderList id) [] = ["c.2", "c.4"] ∧
    ["c.1", "c.3", "c.5", "c.2"].foldl (insertTailqStringOrderList id) [] =
      ["c.1", "c.2", "c.5"] ∧
    "c.3" ∉ (["c.1", "c.2", "c.5"] : List String) := by
  decide

/-- C3: the spec claims every ordinal of the nine-entry type table round-trips
through usbg_get_function_type_str and usbg_lookup_function_type; ordinals 1
through 8 do, but the guard of usbg_get_function_type_str reads type > 0, so
ordinal 0 (serial) yields NULL instead of the table entry "gser" and the
round-trip fails there (tests/test.c asserts the "gser" result, so the code
contradicts its own tests). -/
theorem C3_type_table_zero_broken :
    usbg_lookup_function_type "gser" = F_SERIAL ∧
    usbg_get_function_type_str F_SERIAL = none ∧
    usbg_get_function_type_str 1 = some "acm" ∧ usbg_lookup_function_type "acm" = 1 ∧
    usbg_get_function_type_str 2 = some "obex" ∧ usbg_lookup_function_type "obex" = 2 ∧
    usbg_get_function_type_str 3 = some "ecm" ∧ usbg_lookup_function_type "ecm" = 3 ∧
    usbg_get_function_type_str 4 = some "geth" ∧ usbg_lookup_function_type "geth" = 4 ∧
    usbg_get_function_type_str 5 = some "ncm" ∧ usbg_lookup_function_type "ncm" = 5 ∧
    usbg_get_function_type_str 6 = some "eem" ∧ usbg_lookup_function_type "eem" = 6 ∧
    usbg_get_function_type_str 7 = some "rndis" ∧ usbg_lookup_function_type "rndis" = 7 ∧
    usbg_get_function_type_str 8 = some "phonet" ∧ usbg_lookup_function_type "phonet" = 8 := by
  decide

/-- C4 (counterexample): the claim says a failing attribute write after the
directory was created makes the create operation remove that directory; but
usbg_create_function with a failing usbg_set_function_attrs returns the error
with the created directory still present in the filesystem. -/
theorem C4_counterexample :
    (usbg_create_function "p" "g" [] F_ACM "0" [] none true USBG_ERROR_IO).1 ≠ USBG_SUCCESS ∧
    "p/g/functions/acm.0" ∈
      (usbg_create_function "p" "g" [] F_ACM "0" [] none true USBG_ERROR_IO).2.1 := by
  decide

/-- C5 (counterexample): the claim says the udc mirror keeps its previous
value when the UDC write fails; but usbg_disable_gadget clears the mirror
before attempting the write, so after a failed write the mirror is empty
instead of the previous "UDC1". -/
theorem C5_counterexample :
    usbg_disable_gadget "UDC1" USBG_ERROR_IO = ( USBG_ERROR_IO, "") ∧
    ("" : String) ≠ "UDC1" := by
  decide

set_option maxRecDepth 8000 in
/-- C6: the spec claims a composed path that does not fit makes the operation
return path-too-long with zero filesystem mutation; usbg_create_config
violates this: its length check on the appended config name is inverted (it
assigns PATH_TOO_LONG precisely when the name fits, and the assignment is
immediately overwritten), and mkdir runs unconditionally on the truncated
buffer, so with a 243-character gadget path the call creates a directory
named by the truncated path and returns success. -/
theorem C6_create_config_mkdir_on_overflow :
    (String.mk (List.replicate 243 'a') ++ "/g/configs/c.1").length ≥ USBG_MAX_PATH_LENGTH ∧
    usbg_create_config (String.mk (List.replicate 243 'a')) "g" [] 1 "c" [] none false none =
      (USBG_SUCCESS, [String.mk (List.replicate 243 'a') ++ "/g/configs/c"], [(1, "c")]) := by
  decide

/-- C9: the spec claims a caller-supplied config attribute block is applied
after the directory is created and the create then succeeds; but the guard of
usbg_set_config_attrs reads c && !c_attrs, so with a non-null block it
returns USBG_ERROR_INVALID_PARAM without writing anything and
usbg_create_config fails and discards the config (while leaving the created
directory behind). -/
theorem C9_config_attrs_guard_inverted :
    usbg_set_config_attrs true true = some USBG_ERROR_INVALID_PARAM ∧
    usbg_create_config "p" "g" [] 1 "c" [] none true none =
      (USBG_ERROR_INVALID_PARAM, ["p/g/configs/c.1"], []) := by
  decide

/-- C8 (counterexample): the claim says a suffix that does not parse as a
base-10 integer in [0, 255] yields invalid-parameter; but a suffix whose
digit run overflows the C long range makes strtol set ERANGE and the code
returns the translated other-error instead. -/
theorem C8_counterexample :
    (usbg_split_config_label_id "c.99999999999999999999").1 = USBG_ERROR_OTHER_ERROR ∧
    USBG_ERROR_OTHER_ERROR ≠ USBG_ERROR_INVALID_PARAM := by
  decide

theorem string_data_eq_nil (s : String) : s.data = [] ↔ s = "" := by
  cases s
  simp [String.ext_iff]

/-- C7: usbg_split_function_instance_type splits at the first dot, returning
invalid-parameter when the separator is absent, at position 0, or immediately
followed by the end of the string; otherwise it fails with not-supported
unless the prefix is a case-sensitive entry of the fixed type table, in which
case it succeeds with that entry's ordinal and the suffix as the instance.
In particular "acm." and ".acm.0" are rejected. -/
theorem C7_split_function_contract :
    (∀ s : String, '.' ∉ s.data →
      usbg_split_function_instance_type s = (USBG_ERROR_INVALID_PARAM, none, none)) ∧
    (∀ suf : String,
      usbg_split_function_instance_type ("." ++ suf) =
        (USBG_ERROR_INVALID_PARAM, none, none)) ∧
    (∀ pre : String, '.' ∉ pre.data →
      usbg_split_function_instance_type (pre ++ ".") =
        (USBG_ERROR_INVALID_PARAM, none, none)) ∧
    (∀ pre suf : String, '.' ∉ pre.data → pre ≠ "" → suf ≠ "" →
      usbg_split_function_instance_type (pre ++ "." ++ suf) =
        if pre ∈ function_names then
          (USBG_SUCCESS, some (Int.ofNat (List.indexOf pre function_names)), some suf)
        else (USBG_ERROR_NOT_SUPPORTED, none, some suf)) ∧
    (usbg_split_function_instance_type "acm.").1 = USBG_ERROR_INVALID_PARAM ∧
    (usbg_split_function_instance_type ".acm.0").1 = USBG_ERROR_INVALID_PARAM ∧
    usbg_split_function_instance_type "acm.0" = (USBG_SUCCESS, some F_ACM, some "0") := by
  refine ⟨?_, ?_, ?_, ?_, by decide, by decide, by decide⟩
  · intro s h
    rw [usbg_split_function_instance_type, strchrSplit_not_mem _ _ h]
  · intro suf
    have hdata : ("." ++ suf).data = '.' :: suf.data := by
      simp [String.data_append]
    rw [usbg_split_function_instance_type, hdata, strchrSplit]
    simp
  · intro pre h
    have hdata : (pre ++ ".").data = pre.data ++ '.' :: [] := by
      simp [String.data_append]
    rw [usbg_split_function_instance_type, hdata,
      strchrSplit_append _ _ _ fun x hx e => h (by subst e; exact hx)]
    simp
  · intro pre suf hdot hpre hsuf
    have hdata : (pre ++ "." ++ suf).data = pre.data ++ '.' :: suf.data := by
      simp [String.data_append]
    rw [usbg_split_function_instance_type, hdata,
      strchrSplit_append _ _ _ fun x hx e => hdot (by subst e; exact hx)]
    have hp : ¬ (pre.data = [] ∨ suf.data = []) := by
      simp [string_data_eq_nil, hpre, hsuf]
    dsimp only
    rw [if_neg hp]
    have hmk : String.mk pre.data = pre := rfl
    have hmks : String.mk suf.data = suf := rfl
    rw [hmk, hmks, usbg_lookup_function_type, lookupAux_spec]
    by_cases hmem : pre ∈ function_names
    · rw [if_pos hmem, if_pos hmem, if_pos]
      · simp
      · exact Int.ofNat_nonneg _
    · rw [if_neg hmem, if_neg hmem, if_neg (by decide)]

theorem strtolBody_spec (pre : String) (sign : Int) (r orig : List Char)
    (horig : orig ≠ []) :
    (if (strtolBody sign r orig).2.2 then
        (usbg_translate_error ERANGE, (none : Option String))
      else if ¬ ((strtolBody sign r orig).2.1 = []) ∨ (strtolBody sign r orig).1 < 0 ∨
          (strtolBody sign r orig).1 > 255 then (USBG_ERROR_INVALID_PARAM, some pre)
      else ((strtolBody sign r orig).1, some pre)) =
    (if overflowBody sign r then (USBG_ERROR_OTHER_ERROR, none)
      else
        match specIdBody sign r with
        | some v => (v, some pre)
        | none => (USBG_ERROR_INVALID_PARAM, some pre)) := by
  have htr : usbg_translate_error ERANGE = USBG_ERROR_OTHER_ERROR := by decide
  rcases hds : r.takeWhile Char.isDigit with _ | ⟨d, ds2⟩
  · have hb : strtolBody sign r orig = (0, orig, false) := by
      rw [strtolBody]
      simp [hds]
    have hov : overflowBody sign r = false := by
      simp [overflowBody, hds]
    have hsp : specIdBody sign r = none := by
      cases r with
      | nil => simp [specIdBody]
      | cons a r2 =>
        rw [List.takeWhile_cons] at hds
        by_cases ha : a.isDigit
        · simp [ha] at hds
        · simp [specIdBody, ha]
    rw [hb, hov, hsp]
    simp [horig]
  · have hvds : (strtolBody sign r orig).1 = sign * (digitsVal (d :: ds2) : Int) ∨
        (strtolBody sign r orig).2.2 = true := by
      rw [strtolBody]
      simp only [hds]
      split
      · simp_all
      · split
        · simp
        · split
          · simp
          · simp
    by_cases h1 : sign * (digitsVal (d :: ds2) : Int) > LONG_MAX
    · have hb : strtolBody sign r orig = (LONG_MAX, r.dropWhile Char.isDigit, true) := by
        rw [strtolBody]
        simp [hds, h1]
      have hov : overflowBody sign r = true := by
        simp [overflowBody, hds]
        left
        exact h1
      rw [hb, hov, htr]
      simp
    · by_cases h2 : sign * (digitsVal (d :: ds2) : Int) < LONG_MIN
      · have hb : strtolBody sign r orig = (LONG_MIN, r.dropWhile Char.isDigit, true) := by
          rw [strtolBody]
          simp [hds, h1, h2]
        have hov : overflowBody sign r = true := by
          simp [overflowBody, hds]
          right
          exact h2
        rw [hb, hov, htr]
        simp
      · have hb : strtolBody sign r orig =
            (sign * (digitsVal (d :: ds2) : Int), r.dropWhile Char.isDigit, false) := by
          rw [strtolBody]
          simp [hds, h1, h2]
        have hov : overflowBody sign r = false := by
          simp [overflowBody, hds, h1, h2]
        rw [hb, hov]
        rcases hrest : r.dropWhile Char.isDigit with _ | ⟨e, es⟩
        · have hall : ∀ x ∈ r, x.isDigit := List.dropWhile_eq_nil_iff.mp hrest
          have hr : r.takeWhile Char.isDigit = r := by
            have := List.takeWhile_append_dropWhile (p := Char.isDigit) (l := r)
            rw [hrest, List.append_nil] at this
            exact this
          have hreq : r = d :: ds2 := by rw [← hr, hds]
          have hrne : r ≠ [] := by simp [hreq]
          by_cases hv : sign * (digitsVal (d :: ds2) : Int) < 0 ∨
              sign * (digitsVal (d :: ds2) : Int) > 255
          · have hsp : specIdBody sign r = none := by
              rw [specIdBody, if_pos ⟨hrne, List.all_eq_true.mpr hall⟩]
              rw [hreq] at *
              simp only
              rw [if_neg]
              omega
            rw [hsp]
            simp [hv]
          · have hsp : specIdBody sign r = some (sign * (digitsVal (d :: ds2) : Int)) := by
              rw [specIdBody, if_pos ⟨hrne, List.all_eq_true.mpr hall⟩]
              rw [hreq] at *
              simp only
              rw [if_pos]
              omega
            rw [hsp]
            simp [hv]
        · have hsp : specIdBody sign r = none := by
            rw [specIdBody]
            rcases hcase : r.all Char.isDigit with _ | _
            · simp [hcase]
            · exfalso
              have : r.dropWhile Char.isDigit = [] :=
                List.dropWhile_eq_nil_iff.mpr (List.all_eq_true.mp hcase)
              rw [hrest] at this
              exact List.cons_ne_nil _ _ this
          rw [hsp]
          simp

theorem strtol10_signSplit (c : Char) (cs : List Char) (hsp : ¬ isspaceC c) :
    ∃ sign r, strtol10 (c :: cs) = strtolBody sign r (c :: cs) ∧
      specConfigIdParse (c :: cs) = specIdBody sign r ∧
      strtolOverflow (c :: cs) = overflowBody sign r := by
  have hdw : (c :: cs).dropWhile (fun x => isspaceC x) = c :: cs := by
    rw [List.dropWhile_cons, if_neg (by simpa using hsp)]
  by_cases hminus : c = '-'
  · subst hminus
    refine ⟨-1, cs, ?_, ?_, ?_⟩
    · rw [strtol10, hdw]
      dsimp only
      rw [if_pos rfl]
    · dsimp only [specConfigIdParse]
      rw [if_pos rfl]
    · dsimp only [strtolOverflow]
      rw [if_pos rfl]
  · by_cases hplus : c = '+'
    · subst hplus
      refine ⟨1, cs, ?_, ?_, ?_⟩
      · rw [strtol10, hdw]
        dsimp only
        rw [if_neg hminus, if_pos rfl]
      · dsimp only [specConfigIdParse]
        rw [if_neg hminus, if_pos rfl]
      · dsimp only [strtolOverflow]
        rw [if_neg hminus, if_pos rfl]
    · refine ⟨1, c :: cs, ?_, ?_, ?_⟩
      · rw [strtol10, hdw]
        dsimp only
        rw [if_neg hminus, if_neg hplus]
      · dsimp only [specConfigIdParse]
        rw [if_neg hminus, if_neg hplus]
      · dsimp only [strtolOverflow]
        rw [if_neg hminus, if_neg hplus]

/-- C8 (amended): usbg_split_config_label_id splits at the last dot, rejects a
missing or leading separator and an empty or whitespace-led suffix as
invalid-parameter; a suffix that is not a base-10 integer in [0, 255] with no
trailing characters is rejected as invalid-parameter, except that a suffix
whose digit run overflows the C long range yields the translated other-error
(not invalid-parameter); on success the prefix is returned as the label and
the parsed integer as the id; "c.-1" and "c.256" are rejected as invalid. -/
theorem C8_split_config_contract :
    (∀ s : String, '.' ∉ s.data →
      usbg_split_config_label_id s = (USBG_ERROR_INVALID_PARAM, none)) ∧
    (∀ suf : String, '.' ∉ suf.data →
      usbg_split_config_label_id ("." ++ suf) = (USBG_ERROR_INVALID_PARAM, none)) ∧
    (∀ pre : String,
      usbg_split_config_label_id (pre ++ ".") = (USBG_ERROR_INVALID_PARAM, none)) ∧
    (∀ (pre : String) (c : Char) (cs : List Char), pre ≠ "" → '.' ∉ c :: cs →
      usbg_split_config_label_id (pre ++ "." ++ String.mk (c :: cs)) =
        (if isspaceC c then (USBG_ERROR_INVALID_PARAM, none)
         else if strtolOverflow (c :: cs) then (USBG_ERROR_OTHER_ERROR, none)
         else
           match specConfigIdParse (c :: cs) with
           | some v => (v, some pre)
           | none => (USBG_ERROR_INVALID_PARAM, some pre))) ∧
    usbg_split_config_label_id "c.-1" = (USBG_ERROR_INVALID_PARAM, some "c") ∧
    usbg_split_config_label_id "c.256" = (USBG_ERROR_INVALID_PARAM, some "c") ∧
    usbg_split_config_label_id "c.2" = (2, some "c") := by
  refine ⟨?_, ?_, ?_, ?_, by decide, by decide, by decide⟩
  · intro s h
    have hrev : '.' ∉ s.data.reverse := fun hm => h (List.mem_reverse.mp hm)
    rw [usbg_split_config_label_id, strrchrSplit, strchrSplit_not_mem _ _ hrev]
  · intro suf hdot
    have hdata : ("." ++ suf).data = [] ++ '.' :: suf.data := by
      simp [String.data_append]
    rw [usbg_split_config_label_id, hdata,
      strrchrSplit_last _ _ _ fun x hx e => hdot (by subst e; exact hx)]
    cases suf.data with
    | nil => rfl
    | cons c cs => simp
  · intro pre
    have hdata : (pre ++ ".").data = pre.data ++ '.' :: [] := by
      simp [String.data_append]
    rw [usbg_split_config_label_id, hdata,
      strrchrSplit_last _ _ _ (by intro x hx; cases hx)]
  · intro pre c cs hpre hdot
    have hdata : (pre ++ "." ++ String.mk (c :: cs)).data = pre.data ++ '.' :: (c :: cs) := by
      simp [String.data_append]
    rw [usbg_split_config_label_id, hdata,
      strrchrSplit_last _ _ _ fun x hx e => hdot (by subst e; exact hx)]
    dsimp only
    have hpd : ¬ pre.data = [] := by
      simp [string_data_eq_nil, hpre]
    by_cases hsp : isspaceC c
    · rw [if_pos (by simp [hsp]), if_pos (by simp [hsp])]
    · rw [if_neg (show ¬ (pre.data = [] ∨ isspaceC c) by simp [hsp, hpd]),
        if_neg (show ¬ isspaceC c = true by simpa using hsp)]
      obtain ⟨sign, r, h1, h2, h3⟩ := strtol10_signSplit c cs hsp
      rw [h1, h2, h3]
      exact strtolBody_spec pre sign r (c :: cs) (List.cons_ne_nil _ _)

/-- C5 (amended): enabling updates the in-memory controller mirror only after
a successful UDC write (both with an explicit controller and with the default
first scan entry), and a failed enable leaves the mirror unchanged; disabling
however clears the mirror by strcpy before attempting the write, so after a
failed disable the mirror is empty rather than its previous value. -/
theorem C5_mirror_update :
    (∀ (g_udc udc : String) (scan : Int ⊕ List String) (writeRet : Int),
      writeRet ≠ USBG_SUCCESS →
      usbg_enable_gadget g_udc (some udc) scan writeRet = (writeRet, g_udc)) ∧
    (∀ (g_udc udc : String) (scan : Int ⊕ List String),
      usbg_enable_gadget g_udc (some udc) scan USBG_SUCCESS = (USBG_SUCCESS, udc)) ∧
    (∀ (g_udc u : String) (l : List String) (writeRet : Int),
      writeRet ≠ USBG_SUCCESS →
      usbg_enable_gadget g_udc none (Sum.inr (u :: l)) writeRet = (writeRet, g_udc)) ∧
    (∀ (g_udc u : String) (l : List String),
      usbg_enable_gadget g_udc none (Sum.inr (u :: l)) USBG_SUCCESS = (USBG_SUCCESS, u)) ∧
    (∀ (g_udc : String) (writeRet : Int),
      usbg_disable_gadget g_udc writeRet = (writeRet, "")) := by
  refine ⟨?_, ?_, ?_, ?_, ?_⟩ <;>
    intros <;>
    simp_all [usbg_enable_gadget, usbg_enable_gadget_write, usbg_disable_gadget]

/-- C5 witness: the mirror-update theorem instantiated at concrete inputs. -/
theorem C5_mirror_update_witness :
    usbg_enable_gadget "UDC0" (some "UDC9") (Sum.inr []) USBG_ERROR_IO =
      ( USBG_ERROR_IO, "UDC0") ∧
    usbg_disable_gadget "UDC9" USBG_ERROR_NO_ACCESS = (USBG_ERROR_NO_ACCESS, "") :=
  ⟨C5_mirror_update.1 "UDC0" "UDC9" (Sum.inr []) USBG_ERROR_IO (by decide),
   C5_mirror_update.2.2.2.2 "UDC9" USBG_ERROR_NO_ACCESS⟩

/-- C7 witness: the split contract instantiated at concrete inputs. -/
theorem C7_split_function_witness :
    usbg_split_function_instance_type "xyz" = (USBG_ERROR_INVALID_PARAM, none, none) ∧
    usbg_split_function_instance_type ("acm" ++ "." ++ "7") =
      (USBG_SUCCESS, some (Int.ofNat (List.indexOf "acm" function_names)), some "7") := by
  constructor
  · exact C7_split_function_contract.1 "xyz" (by decide)
  · rw [C7_split_function_contract.2.2.2.1 "acm" "7" (by decide) (by decide) (by decide)]
    rw [if_pos (by decide)]

/-- C8 witness: the split contract instantiated at concrete inputs. -/
theorem C8_split_config_witness :
    usbg_split_config_label_id "abc" = (USBG_ERROR_INVALID_PARAM, none) ∧
    usbg_split_config_label_id ("cfg" ++ "." ++ String.mk ('7' :: [])) = (7, some "cfg") := by
  constructor
  · exact C8_split_config_contract.1 "abc" (by decide)
  · rw [C8_split_config_contract.2.2.2.1 "cfg" '7' [] (by decide) (by decide)]
    decide

theorem firstLine_take_strip (l : List Char) (k : Nat) :
    ((firstLineIncl l).take k).takeWhile (fun c => c ≠ '\n') =
      (l.takeWhile (fun c => c ≠ '\n')).take k := by
  induction l generalizing k with
  | nil => simp [firstLineIncl]
  | cons a as ih =>
    simp only [ne_eq, decide_not] at ih ⊢
    by_cases ha : a = '\n'
    · subst ha
      cases k with
      | zero => simp
      | succ k2 => simp [firstLineIncl]
    · cases k with
      | zero => simp [firstLineIncl]
      | succ k2 => simp [firstLineIncl, ha, ih]

/-- C10: usbg_read_string stores the empty string into the caller buffer on
every failure path (path too long, open failure, read failure), so the buffer
is never left with its previous content; on success it stores the first line
of the file with the trailing newline stripped (truncated to the buffer
bound). -/
theorem C10_read_string_buffer (fs : String → Option String) (eno : Int)
    (path name file buf : String) :
    ((usbg_read_string fs eno path name file buf).1 ≠ USBG_SUCCESS →
      (usbg_read_string fs eno path name file buf).2 = "") ∧
    (∀ content : String,
      (path ++ "/" ++ name ++ "/" ++ file).data.length < USBG_MAX_PATH_LENGTH →
      fs (path ++ "/" ++ name ++ "/" ++ file) = some content →
      content ≠ "" →
      usbg_read_string fs eno path name file buf =
        (USBG_SUCCESS,
          String.mk ((content.data.takeWhile (fun c => c ≠ '\n')).take
            (USBG_MAX_STR_LENGTH - 1)))) := by
  constructor
  · intro h
    rw [usbg_read_string] at h ⊢
    by_cases hr : (usbg_read_buf fs eno path name file buf).1 = USBG_SUCCESS
    · rw [if_pos hr] at h
      exact absurd hr h
    · rw [if_neg hr]
  · intro content hfit hfs hne
    have hpath : String.mk ((path ++ "/" ++ name ++ "/" ++ file).data.take
        (USBG_MAX_PATH_LENGTH - 1)) = path ++ "/" ++ name ++ "/" ++ file := by
      rw [List.take_of_length_le (by omega)]
    have hbuf : usbg_read_buf fs eno path name file buf =
        (USBG_SUCCESS,
          String.mk ((firstLineIncl content.data).take (USBG_MAX_STR_LENGTH - 1))) := by
      rw [usbg_read_buf]
      dsimp only [snprintfModel]
      rw [if_pos hfit, hpath, hfs]
      simp only [fgetsModel]
      rw [if_neg hne]
    rw [usbg_read_string, hbuf]
    rw [if_pos rfl]
    exact congrArg _ (congrArg _ (firstLine_take_strip content.data _))

/-- C10 witness: the buffer theorem instantiated at a concrete filesystem. -/
theorem C10_read_string_witness :
    usbg_read_string (fun p => if p = "a/b/c" then some "hello\nworld" else none)
      ENOENT "a" "b" "c" "junk" = (USBG_SUCCESS, "hello") ∧
    (usbg_read_string (fun p => if p = "a/b/c" then some "hello\nworld" else none)
      ENOENT "a" "b" "d" "junk").2 = "" := by
  constructor
  · rw [(C10_read_string_buffer _ ENOENT "a" "b" "c" "junk").2 "hello\nworld"
      (by decide) (by decide) (by decide)]
    decide
  · exact (C10_read_string_buffer _ ENOENT "a" "b" "d" "junk").1 (by decide)

/-- C4 (amended): when a step after the on-disk directory has been created
fails (an attribute or string write, or the idVendor/idProduct writes of
gadget creation), the create operation discards or abandons the in-memory
node without inserting it, so the graph contains no partially-created entity;
but the created directory is not removed (removal happens only inside
empty-gadget creation when its UDC read fails), so the filesystem retains the
partially-created directory on such error returns. -/
theorem C4_no_rollback_of_directory :
    (∀ (gpath gname inst ts : String) (funcs : List (Int × String))
        (fs : List String) (type attrRet : Int),
      usbg_get_function_mem funcs type inst = false →
      usbg_get_function_type_str type = some ts →
      (gpath ++ "/" ++ gname ++ "/functions").data.length < USBG_MAX_PATH_LENGTH →
      ("/" ++ (ts ++ "." ++ inst)).data.length <
        USBG_MAX_PATH_LENGTH - (gpath ++ "/" ++ gname ++ "/functions").data.length →
      attrRet ≠ USBG_SUCCESS →
      ∃ dir, usbg_create_function gpath gname funcs type inst fs none true attrRet =
        (attrRet, fs ++ [dir], funcs)) ∧
    (∀ (gpath gname label : String) (configs : List (Int × String))
        (fs : List String) (id sret : Int),
      0 < id → id ≤ 255 →
      configs.any (fun c => c.1 == id) = false →
      (gpath ++ "/" ++ gname ++ "/configs").data.length < USBG_MAX_PATH_LENGTH →
      sret ≠ USBG_SUCCESS →
      ∃ dir, usbg_create_config gpath gname configs id label fs none false (some sret) =
        (sret, fs ++ [dir], configs)) ∧
    (∀ (spath name : String) (gadgets : List String) (fs : List String) (vidRet pidRet : Int),
      gadgets.any (fun g => g == name) = false →
      (spath ++ "/" ++ name).data.length < USBG_MAX_PATH_LENGTH →
      vidRet ≠ USBG_SUCCESS →
      ∃ dir, usbg_create_gadget_vid_pid spath gadgets name fs none USBG_SUCCESS vidRet pidRet =
        (vidRet, fs ++ [dir], gadgets)) ∧
    (∀ (spath name : String) (gadgets : List String) (fs : List String) (pidRet : Int),
      gadgets.any (fun g => g == name) = false →
      (spath ++ "/" ++ name).data.length < USBG_MAX_PATH_LENGTH →
      pidRet ≠ USBG_SUCCESS →
      ∃ dir, usbg_create_gadget_vid_pid spath gadgets name fs none USBG_SUCCESS USBG_SUCCESS pidRet =
        (pidRet, fs ++ [dir], gadgets)) := by
  refine ⟨?_, ?_, ?_, ?_⟩
  · intro gpath gname inst ts funcs fs type attrRet h1 h3 h2 h4 h5
    rw [usbg_create_function, if_neg (by simp [h1]), h3]
    dsimp only [snprintfModel]
    rw [if_neg (by omega), if_pos (by omega)]
    rw [if_pos (rfl : true = true), if_neg h5]
    exact ⟨_, rfl⟩
  · intro gpath gname label configs fs id sret hid1 hid2 hdup hfit hsret
    rw [usbg_create_config, if_neg (by omega), if_neg (by simp [hdup])]
    dsimp only [snprintfModel]
    rw [if_neg (by omega)]
    rw [if_neg (show ¬ (false = true) by decide)]
    rw [if_pos (rfl : USBG_SUCCESS = USBG_SUCCESS)]
    rw [if_neg hsret]
    exact ⟨_, rfl⟩
  · intro spath name gadgets fs vidRet pidRet hdup hfit hvid
    rw [usbg_create_gadget_vid_pid, if_neg (by simp [hdup])]
    have hemp : usbg_create_empty_gadget spath name fs none USBG_SUCCESS =
        (USBG_SUCCESS, fs ++
          [String.mk ((spath ++ "/" ++ name).data.take (USBG_MAX_PATH_LENGTH - 1))]) := by
      rw [usbg_create_empty_gadget]
      dsimp only [snprintfModel]
      rw [if_neg (by omega), if_pos rfl]
    rw [hemp, if_pos rfl, if_neg hvid]
    exact ⟨_, rfl⟩
  · intro spath name gadgets fs pidRet hdup hfit hpid
    rw [usbg_create_gadget_vid_pid, if_neg (by simp [hdup])]
    have hemp : usbg_create_empty_gadget spath name fs none USBG_SUCCESS =
        (USBG_SUCCESS, fs ++
          [String.mk ((spath ++ "/" ++ name).data.take (USBG_MAX_PATH_LENGTH - 1))]) := by
      rw [usbg_create_empty_gadget]
      dsimp only [snprintfModel]
      rw [if_neg (by omega), if_pos rfl]
    rw [hemp, if_pos rfl, if_pos rfl, if_neg hpid]
    exact ⟨_, rfl⟩

/-- C4 witness: the amended no-rollback theorem instantiated at concrete
inputs. -/
theorem C4_no_rollback_witness :
    (∃ dir, usbg_create_function "p" "g" [] F_ACM "5" [] none true USBG_ERROR_NO_ACCESS =
      (USBG_ERROR_NO_ACCESS, [] ++ [dir], [])) ∧
    (∃ dir, usbg_create_config "p" "g" [] 2 "cfg" [] none false (some USBG_ERROR_IO) =
      ( USBG_ERROR_IO, [] ++ [dir], [])) ∧
    (∃ dir, usbg_create_gadget_vid_pid "r" [] "g2" [] none USBG_SUCCESS USBG_ERROR_IO 0 =
      ( USBG_ERROR_IO, [] ++ [dir], [])) ∧
    (∃ dir, usbg_create_gadget_vid_pid "r" [] "g2" [] none USBG_SUCCESS USBG_SUCCESS USBG_ERROR_BUSY =
      (USBG_ERROR_BUSY, [] ++ [dir], [])) :=
  ⟨C4_no_rollback_of_directory.1 "p" "g" "5" "acm" [] [] F_ACM USBG_ERROR_NO_ACCESS
      (by decide) (by decide) (by decide) (by decide) (by decide),
    C4_no_rollback_of_directory.2.1 "p" "g" "cfg" [] [] 2 USBG_ERROR_IO
      (by decide) (by decide) (by decide) (by decide) (by decide),
    C4_no_rollback_of_directory.2.2.1 "r" "g2" [] [] USBG_ERROR_IO 0
      (by decide) (by decide) (by decide),
    C4_no_rollback_of_directory.2.2.2 "r" "g2" [] [] USBG_ERROR_BUSY
      (by decide) (by decide) (by decide)⟩

end Usbg
